import Mathlib

/-!
Verification of the `rocket-apitoken` crate (`src/lib.rs`): a bearer-token
authorization guard for Rocket.  The Rust code keeps an `ApiToken` state
(a `HashSet<String>` of accepted credential strings plus an `enabled` flag)
and implements `FromRequest for Authorized`, which reads the state from
Rocket, and decides the request from the `Authorization` header.

The shallow embedding below translates the Rust code directly:
`HashSet<String>` becomes `Finset String`, `format!("Bearer {}", token)`
becomes `"Bearer " ++ token`, `Status::Unauthorized` becomes the numeric
status `401`, and the `Outcome` of the guard becomes an inductive with a
success constructor and an error constructor carrying status and reason.
The `.expect` on the state lookup is modelled with `Except String`, the
error carrying the panic message.
-/

namespace RocketApiToken

/-- Result of the request guard, mirroring Rocket's `Outcome` as used in
`from_request`: `Outcome::Success(Authorized)` or
`Outcome::Error((Status, &str))` with a numeric status and a reason. -/
inductive Outcome where
  | success : Outcome
  | error : Nat → String → Outcome
deriving DecidableEq

/-- The `ApiToken` struct of `src/lib.rs`: a set of accepted credential
strings and the enabled flag. -/
structure ApiToken where
  tokens : Finset String
  enabled : Bool
deriving DecidableEq

/-- `ApiToken::new`: maps each raw token through
`format!("Bearer {}", token)` and collects the results into the set. -/
def ApiToken.new (tokens : List String) (enabled : Bool) : ApiToken :=
  { tokens := (tokens.map (fun token => "Bearer " ++ token)).toFinset
    enabled := enabled }

/-- `ApiToken::add_bearer`: inserts `format!("Bearer {}", token)` into the
set of accepted credential strings. -/
def ApiToken.add_bearer (s : ApiToken) (token : String) : ApiToken :=
  { s with tokens := insert ("Bearer " ++ token) s.tokens }

/-- The body of `Authorized::from_request` after the state lookup
succeeded: if the guard is disabled, succeed; otherwise match on the
`Authorization` header and test exact membership in the accepted set. -/
def from_request (token : ApiToken) (header : Option String) : Outcome :=
  if !token.enabled then
    Outcome.success
  else
    match header with
    | some value =>
        if value ∈ token.tokens then
          Outcome.success
        else
          Outcome.error 401 "invalid token"
    | none => Outcome.error 401 "Authorization header not found"

/-- `Authorized::from_request` including the managed-state lookup: the
Rust code calls `.state::<ApiToken>().expect("Token state not available.")`,
so an absent state panics with that message instead of producing an
outcome. -/
def from_request_raw (state : Option ApiToken) (header : Option String) :
    Except String Outcome :=
  match state with
  | none => Except.error "Token state not available."
  | some token => Except.ok (from_request token header)

/-- State-passing form of the guard body: the Rust function only holds a
shared borrow of the `ApiToken` state and performs no write, so each
branch returns the state it was given, paired with the outcome. -/
def from_request_st (token : ApiToken) (header : Option String) :
    Outcome × ApiToken :=
  if !token.enabled then
    (Outcome.success, token)
  else
    match header with
    | some value =>
        if value ∈ token.tokens then
          (Outcome.success, token)
        else
          (Outcome.error 401 "invalid token", token)
    | none => (Outcome.error 401 "Authorization header not found", token)

/-- The lowercase scheme differs from the stored prefix in its first
character, so the two credential strings are never equal. -/
theorem bearer_scheme_ne (tok : String) :
    ("bearer " ++ tok) ≠ ("Bearer " ++ tok) := by
  intro heq
  have hdata : ("bearer " ++ tok).data = ("Bearer " ++ tok).data :=
    congrArg String.data heq
  rw [String.data_append, String.data_append] at hdata
  have hpre : ("bearer ").data = ("Bearer ").data :=
    List.append_cancel_right hdata
  exact absurd (String.ext hpre) (by decide)

/-- C1: with the guard enabled and a header value present, the check
succeeds exactly when the value is a byte-for-byte member of the accepted
set; any non-member fails with reason "invalid token"; in particular a
lowercase scheme `bearer tok` against the accepted set of
`ApiToken::new([tok], true)` (which stores `Bearer tok`) is rejected. -/
theorem c1_exact_match (t : ApiToken) (v : String) (h : t.enabled = true) :
    (from_request t (some v) = Outcome.success ↔ v ∈ t.tokens) ∧
    (v ∉ t.tokens →
      from_request t (some v) = Outcome.error 401 "invalid token") ∧
    (∀ tok : String,
      from_request (ApiToken.new [tok] true) (some ("bearer " ++ tok)) =
        Outcome.error 401 "invalid token") := by
  refine ⟨?_, ?_, ?_⟩
  · simp only [from_request, h, Bool.not_true, Bool.false_eq_true, if_false]
    split
    · simp_all
    · simp_all
  · intro hv
    simp [from_request, h, hv]
  · intro tok
    have hne := bearer_scheme_ne tok
    simp [from_request, ApiToken.new, hne]

/-- C1 witness: concrete instance with the authorizer built from the
single token "abc", evaluated at the header value "Bearer abc". -/
theorem c1_exact_match_witness :
    (ApiToken.new ["abc"] true).enabled = true ∧
    ((from_request (ApiToken.new ["abc"] true) (some "Bearer abc") =
        Outcome.success ↔
        "Bearer abc" ∈ (ApiToken.new ["abc"] true).tokens) ∧
      ("Bearer abc" ∉ (ApiToken.new ["abc"] true).tokens →
        from_request (ApiToken.new ["abc"] true) (some "Bearer abc") =
          Outcome.error 401 "invalid token") ∧
      (∀ tok : String,
        from_request (ApiToken.new [tok] true) (some ("bearer " ++ tok)) =
          Outcome.error 401 "invalid token")) :=
  ⟨by decide, c1_exact_match (ApiToken.new ["abc"] true) "Bearer abc"
    (by decide)⟩

/-- C2: with the guard disabled, every input is authorized, whatever the
header and whatever the accepted set. -/
theorem c2_disabled_always_authorized (t : ApiToken) (h : t.enabled = false)
    (header : Option String) :
    from_request t header = Outcome.success := by
  simp [from_request, h]

/-- C2 witness: a disabled authorizer with a nonempty set and an arbitrary
non-matching header still authorizes. -/
theorem c2_disabled_always_authorized_witness :
    (ApiToken.new ["abc"] false).enabled = false ∧
    from_request (ApiToken.new ["abc"] false) (some "garbage") =
      Outcome.success :=
  ⟨by decide, c2_disabled_always_authorized (ApiToken.new ["abc"] false)
    (by decide) (some "garbage")⟩

/-- C3 counterexample: the code rejects a missing header with reason
"Authorization header not found", not "authorization header missing" as
the claim states, refuted at the concrete authorizer new([], true). -/
theorem c3_reason_counterexample :
    from_request (ApiToken.new [] true) none ≠
      Outcome.error 401 "authorization header missing" := by
  decide

/-- C3 amended: with the guard enabled and no header, the check fails with
status 401 and reason "Authorization header not found". -/
theorem c3_missing_header (t : ApiToken) (h : t.enabled = true) :
    from_request t none =
      Outcome.error 401 "Authorization header not found" := by
  simp [from_request, h]

/-- C3 witness: the missing-header failure at the concrete authorizer
new([], true). -/
theorem c3_missing_header_witness :
    (ApiToken.new [] true).enabled = true ∧
    from_request (ApiToken.new [] true) none =
      Outcome.error 401 "Authorization header not found" :=
  ⟨by decide, c3_missing_header (ApiToken.new [] true) (by decide)⟩

/-- C4: for every token list and every member token, the authorizer built
by new(T, true) accepts the header "Bearer " ++ t. -/
theorem c4_member_authorized (T : List String) (t : String) (h : t ∈ T) :
    from_request (ApiToken.new T true) (some ("Bearer " ++ t)) =
      Outcome.success := by
  simp [from_request, ApiToken.new]
  exact ⟨t, h, rfl⟩

/-- C4 witness: new(["abc"], true) with header "Bearer abc" authorizes. -/
theorem c4_member_authorized_witness :
    "abc" ∈ ["xyz", "abc"] ∧
    from_request (ApiToken.new ["xyz", "abc"] true)
      (some ("Bearer " ++ "abc")) = Outcome.success :=
  ⟨by decide, c4_member_authorized ["xyz", "abc"] "abc" (by decide)⟩

/-- C5: the accepted set of new(T, e) is exactly the image of T under
prefixing with "Bearer "; order is irrelevant and duplicates collapse,
as witnessed by the toFinset characterisation and by the collapse of a
repeated head element. -/
theorem c5_accepted_set (T : List String) (e : Bool) :
    (∀ s : String,
      s ∈ (ApiToken.new T e).tokens ↔ ∃ t ∈ T, s = "Bearer " ++ t) ∧
    (ApiToken.new T e).tokens = (T.map (fun t => "Bearer " ++ t)).toFinset ∧
    (∀ t : String,
      (ApiToken.new (t :: t :: T) e).tokens =
        (ApiToken.new (t :: T) e).tokens) := by
  refine ⟨?_, rfl, ?_⟩
  · intro s
    simp only [ApiToken.new, List.mem_toFinset, List.mem_map]
    constructor
    · rintro ⟨t, ht, rfl⟩
      exact ⟨t, ht, rfl⟩
    · rintro ⟨t, ht, rfl⟩
      exact ⟨t, ht, rfl⟩
  · intro t
    simp [ApiToken.new, List.toFinset_cons, Finset.insert_idem]

/-- C6: inserting the same raw token twice in a row leaves the accepted
set cardinality after the second call equal to that after the first. -/
theorem c6_add_bearer_idempotent (s : ApiToken) (t : String) :
    ((s.add_bearer t).add_bearer t).tokens.card =
      (s.add_bearer t).tokens.card := by
  simp [ApiToken.add_bearer, Finset.insert_idem]

/-- C7: the outcome depends on nothing but the accepted set, the enabled
flag and the header: two states agreeing on both fields decide every
header identically. -/
theorem c7_outcome_determined (s₁ s₂ : ApiToken) (header : Option String)
    (ht : s₁.tokens = s₂.tokens) (he : s₁.enabled = s₂.enabled) :
    from_request s₁ header = from_request s₂ header := by
  obtain ⟨tk₁, e₁⟩ := s₁
  obtain ⟨tk₂, e₂⟩ := s₂
  cases ht
  cases he
  rfl

/-- C7 witness: two authorizers built differently but with equal fields
decide the same header identically. -/
theorem c7_outcome_determined_witness :
    (ApiToken.new ["abc"] true).tokens =
      ((ApiToken.new [] true).add_bearer "abc").tokens ∧
    (ApiToken.new ["abc"] true).enabled =
      ((ApiToken.new [] true).add_bearer "abc").enabled ∧
    from_request (ApiToken.new ["abc"] true) (some "Bearer abc") =
      from_request ((ApiToken.new [] true).add_bearer "abc")
        (some "Bearer abc") :=
  ⟨by decide, by decide,
    c7_outcome_determined (ApiToken.new ["abc"] true)
      ((ApiToken.new [] true).add_bearer "abc") (some "Bearer abc")
      (by decide) (by decide)⟩

/-- C8: the check is read-only: the state-passing form returns the state
unchanged in every branch, and its outcome agrees with the pure check. -/
theorem c8_check_read_only (t : ApiToken) (header : Option String) :
    (from_request_st t header).2 = t ∧
    (from_request_st t header).1 = from_request t header := by
  obtain ⟨tk, e⟩ := t
  rcases e <;> rcases header with _ | v
  · exact ⟨rfl, rfl⟩
  · exact ⟨rfl, rfl⟩
  · exact ⟨rfl, rfl⟩
  · by_cases hv : v ∈ tk <;>
      simp [from_request_st, from_request, hv]

/-- C9: add_bearer only grows the accepted set and keeps the enabled flag,
so every header authorized before the call is authorized after it. -/
theorem c9_add_bearer_monotone (s : ApiToken) (tok : String) :
    s.tokens ⊆ (s.add_bearer tok).tokens ∧
    (s.add_bearer tok).enabled = s.enabled ∧
    (∀ header, from_request s header = Outcome.success →
      from_request (s.add_bearer tok) header = Outcome.success) := by
  refine ⟨Finset.subset_insert _ _, rfl, ?_⟩
  intro header hsucc
  rcases hs : s.enabled with _ | _
  · simp [from_request, ApiToken.add_bearer, hs]
  · rcases header with _ | v
    · simp [from_request, hs] at hsucc
    · have hv : v ∈ s.tokens := by
        by_contra hv
        simp [from_request, hs, hv] at hsucc
      have hv₂ : v ∈ (s.add_bearer tok).tokens :=
        Finset.mem_insert_of_mem hv
      have he : (s.add_bearer tok).enabled = true := hs
      simp [from_request, he, hv₂]

/-- C9 witness: adding a token to new(["abc"], true) keeps the old header
authorized. -/
theorem c9_add_bearer_monotone_witness :
    from_request ((ApiToken.new ["abc"] true).add_bearer "xyz")
      (some "Bearer abc") = Outcome.success :=
  (c9_add_bearer_monotone (ApiToken.new ["abc"] true) "xyz").2.2
    (some "Bearer abc") (by decide)

/-- C10: with no ApiToken in managed state the lookup panics with the
expect message and never yields an outcome, Unauthorized included; with
the state available the panic branch is unreachable and the guard
produces the pure outcome. -/
theorem c10_missing_state_panics :
    (∀ header, from_request_raw none header =
      Except.error "Token state not available.") ∧
    (∀ header o, from_request_raw none header ≠ Except.ok o) ∧
    (∀ (t : ApiToken) (header : Option String),
      from_request_raw (some t) header = Except.ok (from_request t header)) := by
  refine ⟨fun _ => rfl, ?_, fun _ _ => rfl⟩
  intro header o h
  exact absurd h (by simp [from_request_raw])

end RocketApiToken
